import Mathlib

/-!
Shallow embedding of `node_shell.py`, an interactive shell for browsing
immutable, identifier-addressed nodes of a graph-structured entity store.

The store itself (node resolution, attribute/extras storage, link queries,
repository reads) is external to the program; it is modelled here by explicit
data carried on a `Node` value (its mappings, link lists and repository tree)
and by a resolution function passed in where the program calls the store.
Stateful shell code becomes explicit state passing over `ShellState`; Python
exceptions become `Except` values.
-/

namespace NodeShell

/-- Kind of an object in a node's repository (`aiida.orm.utils.repository.FileType`). -/
inductive FileType where
| directory : FileType
| file : FileType
deriving DecidableEq, Repr

/-- A node's virtual repository: a read-only tree of named files and directories. -/
inductive RepoTree where
| dir (children : List (String × RepoTree)) : RepoTree
| file (content : String) : RepoTree

/-- One entry returned by the store's `list_objects`: a name plus its kind. -/
structure RepoObj where
  name : String
  type : FileType
deriving DecidableEq, Repr

/-- Kind tag of a subtree. -/
def treeKind : RepoTree → FileType
| RepoTree.dir _ => FileType.directory
| RepoTree.file _ => FileType.file

/-- Immediate children of a subtree (empty for a file). -/
def childEntries : RepoTree → List (String × RepoTree)
| RepoTree.dir cs => cs
| RepoTree.file _ => []

/-- Python exceptions that the modelled fragments can raise. -/
inductive PyExc where
| attributeError : PyExc
| isADirectoryError : PyExc
| fileNotFoundError : PyExc
deriving DecidableEq, Repr

/-- An attribute or extra value as the shell sees it: the external renderings
`pformat(value)` and `type(value).__name__` of an otherwise opaque object. -/
structure PyObj where
  pfm : String
  typeName : String

/-- A typed, labelled link to another node. `linkType` stores the upper-cased
value of the store's closed `LinkType` enumeration. -/
structure Link where
  linkType : String
  linkLabel : String
  nodePk : Nat
deriving DecidableEq, Repr

/-- A store node as the shell consumes it. Scalar display strings that come
from external formatters (`human`, `get_node_info`) are carried as fields. -/
structure Node where
  pk : Nat
  uuid : String
  label : String
  description : String
  ctime : String
  ctimeHuman : String
  mtime : String
  mtimeHuman : String
  extras : List (String × PyObj)
  attributes : List (String × PyObj)
  incoming : List Link
  outgoing : List Link
  repo : RepoTree
  nodeInfo : String

/-- Session state of the shell: the current node (if any) and the lazily
cached profile name (`_current_node`, `_current_profile`). -/
structure ShellState where
  currentNode : Option Node
  currentProfile : Option String

/-- The error the store raises when an identifier does not resolve
(spec name `NodeResolutionError`; the class name is carried for display). -/
structure NodeResolutionError where
  klass : String
  msg : String
deriving DecidableEq, Repr

/-- The closed set of values accepted by the link-type filter flag:
`sorted(LINK_TYPES_DICT.keys())` for the store's `LinkType` enumeration. -/
def LINK_TYPES : List String :=
["CALL_CALC", "CALL_WORK", "CREATE", "INPUT_CALC", "INPUT_WORK", "RETURN"]

/-- Lexicographic order on character lists by code point, as Python compares
strings. -/
def lexLe : List Char → List Char → Bool
| [], _ => true
| _ :: _, [] => false
| a :: as, b :: bs =>
  if a.toNat < b.toNat then true
  else if b.toNat < a.toNat then false
  else lexLe as bs

/-- Python `a <= b` on strings: lexicographic by code point. -/
def pyLe (a b : String) : Bool := lexLe a.data b.data

/-- Python `sorted` on a list of strings: a stable ascending sort by `pyLe`. -/
def pySorted (l : List String) : List String :=
List.insertionSort (fun a b => pyLe a b = true) l

/-- Python `s.startswith(pre)`. -/
def strStartsWith (s pre : String) : Bool :=
pre.data.isPrefixOf s.data

/-- Python `s.endswith(suf)`. -/
def strEndsWith (s suf : String) : Bool :=
suf.data.isSuffixOf s.data

/-- A single-quote character as a string (used inside error messages). -/
def sq : String := String.mk [Char.ofNat 39]

/-- Split a character list at every `/`, keeping empty components. -/
def splitComponentsAux (cur : List Char) : List Char → List (List Char)
| [] => [cur.reverse]
| c :: rest =>
  if c = '/' then cur.reverse :: splitComponentsAux [] rest
  else splitComponentsAux (c :: cur) rest

/-- Path components of a character list: split at `/`, drop empty and `.`
components (POSIX path navigation collapses both). -/
def splitPathL (cs : List Char) : List String :=
((splitComponentsAux [] cs).map (fun l => String.mk l)).filter
  (fun c => decide (c ≠ "" ∧ c ≠ "."))

/-- Path components of a path string. -/
def splitPath (s : String) : List String := splitPathL s.data

/-- Python `text.rpartition('/')` restricted to the two parts the completers
use: the text before the last `/` and the text after it (`("", text)` when
there is no `/`). -/
def rpartitionSlash (s : String) : String × String :=
match s.data.reverse.span (fun c => c != '/') with
| (afterRev, []) => ("", String.mk afterRev.reverse)
| (afterRev, _ :: folderRev) => (String.mk folderRev.reverse, String.mk afterRev.reverse)

/-- Look up a child by name in a directory's entry list (first match). -/
def lookupChild (cs : List (String × RepoTree)) (name : String) : Option RepoTree :=
(cs.find? (fun c => c.1 == name)).map Prod.snd

/-- Navigate a repository tree along a component list. -/
def resolve : RepoTree → List String → Option RepoTree
| t, [] => some t
| RepoTree.dir cs, c :: rest =>
  match lookupChild cs c with
  | some t2 => resolve t2 rest
  | none => none
| RepoTree.file _, _ :: _ => none

/-- The store's `Node.list_objects(key)`: immediate children (name, kind) of
the directory at `key`, raising `FileNotFoundError` when `key` does not name
an existing directory (nonexistent path, or a path naming a file). -/
def list_objects (t : RepoTree) (key : String) : Except PyExc (List RepoObj) :=
match resolve t (splitPath key) with
| some (RepoTree.dir cs) => Except.ok (cs.map (fun c => RepoObj.mk c.1 (treeKind c.2)))
| some (RepoTree.file _) => Except.error PyExc.fileNotFoundError
| none => Except.error PyExc.fileNotFoundError

/-- The store's `Node.get_object_content(path)`: the content of the file at
`path`; raises `IsADirectoryError` for a directory and `FileNotFoundError`
for a missing path. -/
def get_object_content (t : RepoTree) (path : String) : Except PyExc String :=
match resolve t (splitPath path) with
| some (RepoTree.file c) => Except.ok c
| some (RepoTree.dir _) => Except.error PyExc.isADirectoryError
| none => Except.error PyExc.fileNotFoundError

/-- Python attribute access on `self._current_node`: raises `AttributeError`
when the reference is `None` (no node loaded). -/
def derefNode (ref : Option Node) : Except PyExc Node :=
match ref with
| none => Except.error PyExc.attributeError
| some n => Except.ok n

/-- Result channels of one command invocation: possibly updated state, lines
printed to stdout, lines printed to stderr (an uncaught exception escapes as
`Except.error`). -/
abbrev Cmd := ShellState → Except PyExc (ShellState × List String × List String)

/-- Error message printed by the `needs_node` guard. -/
def noNodeMsg : String :=
"ERROR: No node loaded - load a node with `load NODE_IDENTIFIER` first"

/-- The `needs_node` decorator: if no node is loaded, print an error and
return without invoking the wrapped command. -/
def needs_node (f : Cmd) : Cmd := fun s =>
match s.currentNode with
| none => Except.ok (s, [noNodeMsg], [])
| some _ => f s

/-- `_set_current_node`: resolve the identifier through the store and assign
the result. The assignment happens only after `load_entity` returns; when it
raises, the previous reference is untouched and the error propagates. -/
def _set_current_node (store : String → Except NodeResolutionError Node)
    (s : ShellState) (identifier : String) :
    ShellState × Except NodeResolutionError Unit :=
match store identifier with
| Except.ok n => ({ s with currentNode := some n }, Except.ok ())
| Except.error e => (s, Except.error e)

/-- The `load` command handler: delegates to `_set_current_node`. -/
def do_load (store : String → Except NodeResolutionError Node)
    (s : ShellState) (arg : String) : ShellState × Except NodeResolutionError Unit :=
_set_current_node store s arg

/-- The `unload` command handler: clears the current node unconditionally. -/
def do_unload (s : ShellState) : ShellState × List String :=
({ s with currentNode := none }, [])

/-- Keys of the extras mapping, as the store's `extras_keys()` returns them. -/
def extras_keys (n : Node) : List String := n.extras.map Prod.fst

/-- Keys of the attributes mapping (`attributes_keys()`). -/
def attributes_keys (n : Node) : List String := n.attributes.map Prod.fst

/-- The store's `get_extra(key)` (`extras[key]` likewise): exact-match lookup. -/
def getExtra (n : Node) (key : String) : Option PyObj :=
(n.extras.find? (fun c => c.1 == key)).map Prod.snd

/-- Exact-match lookup in the attributes mapping. -/
def getAttribute (n : Node) (key : String) : Option PyObj :=
(n.attributes.find? (fun c => c.1 == key)).map Prod.snd

/-- Body of `uuid`. -/
def do_uuid_body (n : Node) : List String := [n.uuid]

/-- Body of `label`. -/
def do_label_body (n : Node) : List String := [n.label]

/-- Body of `description`. -/
def do_description_body (n : Node) : List String := [n.description]

/-- Body of `ctime`; the duration rendering `human(now_aware() - ctime)` is an
external formatter, carried as the field `ctimeHuman`. -/
def do_ctime_body (n : Node) : List String :=
["Created " ++ n.ctimeHuman ++ " (" ++ n.ctime ++ ")"]

/-- Body of `mtime`. -/
def do_mtime_body (n : Node) : List String :=
["Last modified " ++ n.mtimeHuman ++ " (" ++ n.mtime ++ ")"]

/-- Body of `extras`: all keys and values, natural order, or a no-entries line. -/
def do_extras_body (n : Node) : List String :=
if n.extras.isEmpty then ["No extras"]
else n.extras.map (fun c => "- " ++ c.1 ++ ": " ++ c.2.pfm)

/-- Body of `extra KEY`: one entry, or a not-found line naming the key. -/
def do_extra_body (n : Node) (key : String) : List String :=
match getExtra n key with
| some v => ["- " ++ key ++ ": " ++ v.pfm]
| none => ["No extra with key " ++ sq ++ key ++ sq]

/-- Body of `extrakeys`: the extras keys sorted, one per line. -/
def do_extrakeys_body (n : Node) : List String :=
if (extras_keys n).isEmpty then ["No extras"]
else (pySorted (extras_keys n)).map (fun key => "- " ++ key)

/-- Body of `attrs`. -/
def do_attrs_body (n : Node) : List String :=
if n.attributes.isEmpty then ["No attributes"]
else n.attributes.map (fun c => "- " ++ c.1 ++ ": " ++ c.2.pfm)

/-- Body of `attr KEY`. -/
def do_attr_body (n : Node) (key : String) : List String :=
match getAttribute n key with
| some v => ["- " ++ key ++ ": " ++ v.pfm]
| none => ["No attribute with key " ++ sq ++ key ++ sq]

/-- Body of `attrkeys`: the attribute keys sorted, one per line. -/
def do_attrkeys_body (n : Node) : List String :=
if (attributes_keys n).isEmpty then ["No attributes"]
else (pySorted (attributes_keys n)).map (fun key => "- " ++ key)

/-- The store's `get_incoming(...).all()`: incoming links in store order,
filtered by link type when a filter is given. -/
def get_incoming (n : Node) (lt : Option String) : List Link :=
match lt with
| none => n.incoming
| some t => n.incoming.filter (fun l => l.linkType == t)

/-- The store's `get_outgoing(...).all()`. -/
def get_outgoing (n : Node) (lt : Option String) : List Link :=
match lt with
| none => n.outgoing
| some t => n.outgoing.filter (fun l => l.linkType == t)

/-- One printed link line. -/
def formatLink (l : Link) : String :=
"- " ++ l.linkType ++ " (" ++ l.linkLabel ++ ") -> " ++ toString l.nodePk

/-- Body of `in`: fetch incoming links (filtered when a type was given),
print the no-links message or one line per link in store order. -/
def do_in_body (n : Node) (lt : Option String) : List String :=
let type_filter_string :=
  match lt with
  | none => ""
  | some t => " of type " ++ t
let incomings :=
  match lt with
  | none => get_incoming n none
  | some t => get_incoming n (some t)
if incomings.isEmpty then ["No incoming links" ++ type_filter_string]
else incomings.map formatLink

/-- Body of `out`, as the source has it: the filtered list is computed, then
the binding is overwritten by an unfiltered re-fetch before printing. -/
def do_out_body (n : Node) (lt : Option String) : List String :=
let type_filter_string :=
  match lt with
  | none => ""
  | some t => " of type " ++ t
let outgoings :=
  match lt with
  | none => get_outgoing n none
  | some t => get_outgoing n (some t)
let outgoings := get_outgoing n none
if outgoings.isEmpty then ["No outgoing links" ++ type_filter_string]
else outgoings.map formatLink

/-- Body of `show`: the external `get_node_info` rendering. -/
def do_show_body (n : Node) : List String := [n.nodeInfo]

/-- One output line of `repo_ls` for one object, honouring the two flags. -/
def lsLine (long noSlash : Bool) (o : RepoObj) : String :=
(if long then "[" ++ (if o.type == FileType.directory then "d" else "f") ++ "] " else "")
  ++ o.name
  ++ (if noSlash then "" else if o.type == FileType.directory then "/" else "")

/-- Body of `repo_ls`: list the children at PATH; an error from the store's
listing is not caught here. -/
def do_repo_ls_body (n : Node) (long noSlash : Bool) (path : String) :
    Except PyExc (List String) := do
let objs ← list_objects n.repo path
Except.ok (objs.map (lsLine long noSlash))

/-- Body of `repo_cat`: print the file content to stdout, or catch the two
repository read errors and print a distinct message for each to stderr. Other
exceptions would propagate. Returns (stdout, stderr). -/
def do_repo_cat_body (n : Node) (path : String) :
    Except PyExc (List String × List String) :=
match get_object_content n.repo path with
| Except.ok content => Except.ok ([content], [])
| Except.error PyExc.isADirectoryError =>
  Except.ok ([], ["Error: " ++ sq ++ path ++ sq ++ " is a directory"])
| Except.error PyExc.fileNotFoundError =>
  Except.ok ([], ["Error: " ++ sq ++ path ++ sq ++ " not found if node repository"])
| Except.error e => Except.error e

/-- Lift a stdout-only body into a gated command. -/
def gatedOut (body : Node → List String) : Cmd :=
needs_node (fun s => do
  let n ← derefNode s.currentNode
  Except.ok (s, body n, []))

/-- The `uuid` command. -/
def do_uuid : Cmd := gatedOut do_uuid_body

/-- The `label` command. -/
def do_label : Cmd := gatedOut do_label_body

/-- The `description` command. -/
def do_description : Cmd := gatedOut do_description_body

/-- The `ctime` command. -/
def do_ctime : Cmd := gatedOut do_ctime_body

/-- The `mtime` command. -/
def do_mtime : Cmd := gatedOut do_mtime_body

/-- The `extras` command. -/
def do_extras : Cmd := gatedOut do_extras_body

/-- The `extra KEY` command. -/
def do_extra (key : String) : Cmd := gatedOut (fun n => do_extra_body n key)

/-- The `extrakeys` command. -/
def do_extrakeys : Cmd := gatedOut do_extrakeys_body

/-- The `attrs` command. -/
def do_attrs : Cmd := gatedOut do_attrs_body

/-- The `attr KEY` command. -/
def do_attr (key : String) : Cmd := gatedOut (fun n => do_attr_body n key)

/-- The `attrkeys` command. -/
def do_attrkeys : Cmd := gatedOut do_attrkeys_body

/-- The `in` command. -/
def do_in (lt : Option String) : Cmd := gatedOut (fun n => do_in_body n lt)

/-- The `out` command. -/
def do_out (lt : Option String) : Cmd := gatedOut (fun n => do_out_body n lt)

/-- The `show` command. -/
def do_show : Cmd := gatedOut do_show_body

/-- The `repo_ls` command. -/
def do_repo_ls (long noSlash : Bool) (path : String) : Cmd :=
needs_node (fun s => do
  let n ← derefNode s.currentNode
  let out ← do_repo_ls_body n long noSlash path
  Except.ok (s, out, []))

/-- The `repo_cat` command. -/
def do_repo_cat (path : String) : Cmd :=
needs_node (fun s => do
  let n ← derefNode s.currentNode
  let oe ← do_repo_cat_body n path
  Except.ok (s, oe.1, oe.2))

/-- `extras_choices_method`: completion values for `extra`, each key paired
with the rendered type name of its value. Dereferences the current node with
no guard. (A key drawn from `extras_keys` is always present, so the lookup
in the `none` branch is unreachable for well-formed nodes.) -/
def extras_choices_method (s : ShellState) : Except PyExc (List (String × String)) := do
let n ← derefNode s.currentNode
Except.ok ((extras_keys n).map (fun key =>
  (key, "(" ++ (match getExtra n key with
                | some v => v.typeName
                | none => "") ++ ")")))

/-- `attrs_choices_method`: completion values for `attr`. -/
def attrs_choices_method (s : ShellState) : Except PyExc (List (String × String)) := do
let n ← derefNode s.currentNode
Except.ok ((attributes_keys n).map (fun key =>
  (key, "(" ++ (match getAttribute n key with
                | some v => v.typeName
                | none => "") ++ ")")))

/-- The second-level loop of `repo_ls_completer_method`: for each first-level
folder candidate (in order), emit it and then its directory children, each
rendered as `first_level_folder + '/' + obj.name + '/'`. -/
def repoLsExpand (repo : RepoTree) : List String → Except PyExc (List String)
| [] => Except.ok []
| flf :: rest => do
  let objs ← list_objects repo flf
  let tail ← repoLsExpand repo rest
  Except.ok (flf ::
    ((objs.filter (fun o => o.type == FileType.directory)).map
      (fun o => flf ++ "/" ++ o.name ++ "/") ++ tail))

/-- `repo_ls_completer_method`: candidate set handed to the line-editing
substrate (`delimiter_complete`'s `match_against` argument) when completing
the PATH of `repo_ls`. Directories only, two levels deep. -/
def repo_ls_completer_method (s : ShellState) (text : String) :
    Except PyExc (List String) := do
let n ← derefNode s.currentNode
let folder := (rpartitionSlash text).1
let start := (rpartitionSlash text).2
let objs ← list_objects n.repo folder
let first_level_matching :=
  (objs.filter (fun o => strStartsWith o.name start && o.type == FileType.directory)).map
    (fun o => folder ++ (if folder == "" then "" else "/") ++ o.name ++ "/")
repoLsExpand n.repo first_level_matching

/-- The second-level loop of `repo_cat_completer_method`: each first-level
candidate is emitted; those ending in `/` (directories) are additionally
expanded into their children, directories again getting a trailing `/`. -/
def repoCatExpand (repo : RepoTree) : List String → Except PyExc (List String)
| [] => Except.ok []
| flo :: rest => do
  let expansion ←
    if strEndsWith flo "/" then do
      let objs ← list_objects repo flo
      Except.ok (objs.map (fun o =>
        flo ++ "/" ++ o.name ++ (if o.type == FileType.directory then "/" else "")))
    else Except.ok []
  let tail ← repoCatExpand repo rest
  Except.ok (flo :: (expansion ++ tail))

/-- `repo_cat_completer_method`: candidate set when completing the PATH of
`repo_cat`. Files and directories, two levels deep; only directories carry a
trailing `/` and are expanded. -/
def repo_cat_completer_method (s : ShellState) (text : String) :
    Except PyExc (List String) := do
let n ← derefNode s.currentNode
let folder := (rpartitionSlash text).1
let start := (rpartitionSlash text).2
let objs ← list_objects n.repo folder
let first_level_matching :=
  (objs.filter (fun o => strStartsWith o.name start)).map
    (fun o => folder ++ (if folder == "" then "" else "/") ++ o.name
      ++ (if o.type == FileType.directory then "/" else ""))
repoCatExpand n.repo first_level_matching

/-- Outcome of process startup, `__main__`: what was printed, whether the
interactive command loop was entered, and, when it was not, the exit status
of the process (execution falls off the end of the module, which terminates
the interpreter with status 0). -/
structure StartupOutcome where
  printed : List String
  enteredLoop : Bool
  exitStatus : Option Nat
deriving DecidableEq, Repr

/-- The `__main__` block: an identifier taken from the command line (if any)
is resolved inside the `AiiDANodeShell` constructor; an exception there is
caught, printed as `ERROR: <class>: <message>`, and the command loop in the
`else` branch is skipped. A falsy (empty) identifier is not resolved at all. -/
def mainStartup (store : String → Except NodeResolutionError Node)
    (argIdent : Option String) : StartupOutcome :=
match argIdent with
| none => { printed := [], enteredLoop := true, exitStatus := none }
| some i =>
  if i == "" then { printed := [], enteredLoop := true, exitStatus := none }
  else
    match store i with
    | Except.ok _ => { printed := [], enteredLoop := true, exitStatus := none }
    | Except.error e =>
      { printed := ["ERROR: " ++ e.klass ++ ": " ++ e.msg],
        enteredLoop := false,
        exitStatus := some 0 }

/-- A well-formed repository object name: nonempty, not the `.` component,
and free of the `/` separator (spec: names are unique within their parent and
path resolution is component-wise with `/` as separator). -/
def wfName (s : String) : Prop := s ≠ "" ∧ s ≠ "." ∧ '/' ∉ s.data

/-- Modelled from the claim C9 as stated: the candidate set of the
directories-only completer — the directory children of `folder` whose names
start with the prefix, each rendered as the correctly `/`-joined qualified
path with a trailing `/`, plus for each such directory its own directory
children, again correctly `/`-joined. -/
def repo_ls_candidates_claim (t : RepoTree) (text : String) : List String :=
let folder := (rpartitionSlash text).1
let start := (rpartitionSlash text).2
match resolve t (splitPath folder) with
| some (RepoTree.dir cs) =>
  ((cs.filter (fun c => strStartsWith c.1 start && treeKind c.2 == FileType.directory)).map
    (fun c =>
      let joined := folder ++ (if folder == "" then "" else "/") ++ c.1
      (joined ++ "/") ::
        ((childEntries c.2).filter (fun g => treeKind g.2 == FileType.directory)).map
          (fun g => joined ++ "/" ++ g.1 ++ "/"))).flatten
| _ => []

/-- Modelled from the claim C9 as amended: the same candidate set, except
that each second-level candidate is rendered by appending `/` plus the child
name to the first-level candidate string, which already ends in `/`, so the
two path components are separated by a doubled `//`. -/
def repo_ls_candidates_amended (t : RepoTree) (text : String) : List String :=
let folder := (rpartitionSlash text).1
let start := (rpartitionSlash text).2
match resolve t (splitPath folder) with
| some (RepoTree.dir cs) =>
  ((cs.filter (fun c => strStartsWith c.1 start && treeKind c.2 == FileType.directory)).map
    (fun c =>
      let flf := folder ++ (if folder == "" then "" else "/") ++ c.1 ++ "/"
      flf ::
        ((childEntries c.2).filter (fun g => treeKind g.2 == FileType.directory)).map
          (fun g => flf ++ "/" ++ g.1 ++ "/"))).flatten
| _ => []

/-- Builder for concrete sample nodes used in witnesses and counterexamples. -/
def mkNode (pk : Nat) (extras attributes : List (String × PyObj))
    (incoming outgoing : List Link) (repo : RepoTree) : Node :=
{ pk := pk
  uuid := "uuid-sample"
  label := "sample-label"
  description := "sample-description"
  ctime := "2020-01-01"
  ctimeHuman := "2 years ago"
  mtime := "2020-06-01"
  mtimeHuman := "1 year ago"
  extras := extras
  attributes := attributes
  incoming := incoming
  outgoing := outgoing
  repo := repo
  nodeInfo := "sample-node-info" }

/-- Sample repository: `{docs/ {sub/ {}, a.txt}, readme.md}`. -/
def wTree : RepoTree :=
RepoTree.dir
  [("docs", RepoTree.dir [("sub", RepoTree.dir []), ("a.txt", RepoTree.file "hello")]),
   ("readme.md", RepoTree.file "readme")]

/-- Sample node carrying the sample repository. -/
def wRepoNode : Node := mkNode 11 [] [] [] [] wTree

/-- Session with the sample repository node loaded. -/
def wState : ShellState := { currentNode := some wRepoNode, currentProfile := none }

/-- Session with no node loaded. -/
def wEmptyState : ShellState := { currentNode := none, currentProfile := none }

/-- Sample node with typed links: two incoming CREATE links around a RETURN,
and a single outgoing RETURN link. -/
def wLinkNode : Node :=
mkNode 12 [] []
  [Link.mk "CREATE" "c1" 2, Link.mk "RETURN" "r1" 3, Link.mk "CREATE" "c2" 4]
  [Link.mk "RETURN" "res" 7]
  (RepoTree.dir [])

/-- Sample node whose mappings are populated out of lexicographic order. -/
def wKeysNode : Node :=
mkNode 13
  [("beta", PyObj.mk "1" "int"), ("alpha", PyObj.mk "zz" "str")]
  [("b2", PyObj.mk "2" "int"), ("a2", PyObj.mk "3" "int")]
  [] [] (RepoTree.dir [])

/-- Sample resolved node for `load`. -/
def wNode42 : Node := mkNode 42 [] [] [] [] (RepoTree.dir [])

/-- A store that resolves only the identifier `42`. -/
def wStore : String → Except NodeResolutionError Node :=
fun i => if i == "42" then Except.ok wNode42
         else Except.error (NodeResolutionError.mk "NotExistent" "no node found")

/-- A store that resolves nothing. -/
def badStore : String → Except NodeResolutionError Node :=
fun _ => Except.error (NodeResolutionError.mk "NotExistent" "no node found")

/-- Claim C4: every node-scoped command (uuid, label, description, ctime,
mtime, extras, extra, attrs, attr, extrakeys, attrkeys, in, out, show,
repo_ls, repo_cat) invoked with no node loaded reports the no-node-loaded
precondition failure as its only output (one stdout line, nothing on
stderr), raises no exception (in particular no null dereference — the
handler body behind the guard is never entered), and leaves the session
state unchanged. -/
theorem no_node_gate_blocks_commands (s : ShellState) (h : s.currentNode = none) :
    do_uuid s = Except.ok (s, [noNodeMsg], []) ∧
    do_label s = Except.ok (s, [noNodeMsg], []) ∧
    do_description s = Except.ok (s, [noNodeMsg], []) ∧
    do_ctime s = Except.ok (s, [noNodeMsg], []) ∧
    do_mtime s = Except.ok (s, [noNodeMsg], []) ∧
    do_extras s = Except.ok (s, [noNodeMsg], []) ∧
    (∀ key, do_extra key s = Except.ok (s, [noNodeMsg], [])) ∧
    do_attrs s = Except.ok (s, [noNodeMsg], []) ∧
    (∀ key, do_attr key s = Except.ok (s, [noNodeMsg], [])) ∧
    do_extrakeys s = Except.ok (s, [noNodeMsg], []) ∧
    do_attrkeys s = Except.ok (s, [noNodeMsg], []) ∧
    (∀ lt, do_in lt s = Except.ok (s, [noNodeMsg], [])) ∧
    (∀ lt, do_out lt s = Except.ok (s, [noNodeMsg], [])) ∧
    do_show s = Except.ok (s, [noNodeMsg], []) ∧
    (∀ long noSlash path, do_repo_ls long noSlash path s = Except.ok (s, [noNodeMsg], [])) ∧
    (∀ path, do_repo_cat path s = Except.ok (s, [noNodeMsg], [])) := by
  refine ⟨?_, ?_, ?_, ?_, ?_, ?_, ?_, ?_, ?_, ?_, ?_, ?_, ?_, ?_, ?_, ?_⟩ <;>
    intros <;>
    simp [do_uuid, do_label, do_description, do_ctime, do_mtime, do_extras,
      do_extra, do_attrs, do_attr, do_extrakeys, do_attrkeys, do_in, do_out,
      do_show, do_repo_ls, do_repo_cat, gatedOut, needs_node, h]

/-- Witness for C4 at a concrete empty session: `uuid` and `repo_cat` both
print only the precondition-failure message. -/
theorem no_node_gate_blocks_commands_witness :
    do_uuid wEmptyState = Except.ok (wEmptyState, [noNodeMsg], []) ∧
    do_repo_cat "docs" wEmptyState = Except.ok (wEmptyState, [noNodeMsg], []) := by
  have h := no_node_gate_blocks_commands wEmptyState rfl
  exact ⟨h.1, h.2.2.2.2.2.2.2.2.2.2.2.2.2.2.2 "docs"⟩

/-- Claim C10: every tab-completion provider (the extras-key and
attributes-key choices methods and both repository path completers)
dereferences the current-node reference without the no-node guard: with no
node loaded each raises the null-dereference `AttributeError` instead of
returning an empty candidate list. -/
theorem completion_requires_node (s : ShellState) (h : s.currentNode = none) :
    extras_choices_method s = Except.error PyExc.attributeError ∧
    attrs_choices_method s = Except.error PyExc.attributeError ∧
    (∀ text, repo_ls_completer_method s text = Except.error PyExc.attributeError) ∧
    (∀ text, repo_cat_completer_method s text = Except.error PyExc.attributeError) := by
  refine ⟨?_, ?_, ?_, ?_⟩ <;>
    intros <;>
    simp [extras_choices_method, attrs_choices_method, repo_ls_completer_method,
      repo_cat_completer_method, derefNode, h, Bind.bind, Except.bind]

/-- Witness for C10 at a concrete empty session. -/
theorem completion_requires_node_witness :
    extras_choices_method wEmptyState = Except.error PyExc.attributeError ∧
    repo_ls_completer_method wEmptyState "docs/" = Except.error PyExc.attributeError := by
  have h := completion_requires_node wEmptyState rfl
  exact ⟨h.1, h.2.2.1 "docs/"⟩

/-- Claim C5: `load I` with an identifier the store fails to resolve leaves
the whole session state — including the previously current node, loaded or
not — unchanged and propagates the `NodeResolutionError` for the caller to
report; with an identifier that resolves, the resolved node wholesale
replaces the current node reference. -/
theorem load_replaces_or_preserves (store : String → Except NodeResolutionError Node)
    (s : ShellState) (i : String) :
    (∀ e, store i = Except.error e → do_load store s i = (s, Except.error e)) ∧
    (∀ n, store i = Except.ok n →
      do_load store s i = ({ s with currentNode := some n }, Except.ok ())) := by
  constructor <;> intro x hx <;> simp [do_load, _set_current_node, hx]

/-- Witness for C5: a failing `load` preserves the loaded sample node, a
successful one replaces it. -/
theorem load_replaces_or_preserves_witness :
    do_load wStore wState "bad" =
      (wState, Except.error (NodeResolutionError.mk "NotExistent" "no node found")) ∧
    do_load wStore wState "42" =
      ({ currentNode := some wNode42, currentProfile := none }, Except.ok ()) := by
  exact ⟨(load_replaces_or_preserves wStore wState "bad").1 _ rfl,
         (load_replaces_or_preserves wStore wState "42").2 _ rfl⟩

/-- Claim C2 counterexample: at startup with an identifier the store cannot
resolve, the process reports the error and never enters the command loop,
but the exception is caught and execution falls off the end of the module,
so the exit status is 0 — not nonzero as the claim states. -/
theorem startup_failure_exit_status_zero :
    (mainStartup badStore (some "9999")).printed = ["ERROR: NotExistent: no node found"] ∧
    (mainStartup badStore (some "9999")).enteredLoop = false ∧
    (mainStartup badStore (some "9999")).exitStatus = some 0 ∧
    ¬ (∃ c, (mainStartup badStore (some "9999")).exitStatus = some c ∧ c ≠ 0) := by
  refine ⟨rfl, rfl, rfl, ?_⟩
  rintro ⟨c, hc, hne⟩
  have : some (0 : Nat) = some c := hc
  exact hne (Option.some_injective _ this.symm)

/-- Claim C2 as amended: if the startup identifier (a nonempty string) fails
to resolve, the process reports the resolution error and terminates without
entering the interactive command loop (no prompt is shown), with exit
status 0. -/
theorem startup_failure_reports_and_skips_loop
    (store : String → Except NodeResolutionError Node) (i : String)
    (e : NodeResolutionError) (hi : i ≠ "") (he : store i = Except.error e) :
    mainStartup store (some i) =
      { printed := ["ERROR: " ++ e.klass ++ ": " ++ e.msg],
        enteredLoop := false, exitStatus := some 0 } := by
  simp [mainStartup, hi, he]

/-- Witness for the amended C2 at a concrete failing store. -/
theorem startup_failure_reports_and_skips_loop_witness :
    mainStartup badStore (some "9999") =
      { printed := ["ERROR: NotExistent: no node found"],
        enteredLoop := false, exitStatus := some 0 } := by
  exact startup_failure_reports_and_skips_loop badStore "9999" _ (by decide) rfl

/-- Claim C1 (code bug): `out -t T` does not filter what it prints. On a
node whose only outgoing link has type RETURN, `out -t CREATE` prints that
RETURN link instead of the `No outgoing links of type CREATE` message the
claim requires (the filtered list is empty), because the handler re-fetches
the unfiltered link list before printing; `in -t CREATE` on the same link
list behaves as the claim describes. -/
theorem out_ignores_link_type_filter :
    do_out_body wLinkNode (some "CREATE") = ["- RETURN (res) -> 7"] ∧
    wLinkNode.outgoing.filter (fun l => l.linkType == "CREATE") = [] ∧
    do_in_body (mkNode 12 [] [] wLinkNode.outgoing [] (RepoTree.dir [])) (some "CREATE") =
      ["No incoming links of type CREATE"] := by
  exact ⟨by decide, by decide, by decide⟩

/-- `lexLe` is total. -/
theorem lexLe_total : ∀ xs ys : List Char, lexLe xs ys = true ∨ lexLe ys xs = true := by
  intro xs
  induction xs with
  | nil => intro ys; left; simp [lexLe]
  | cons a as ih =>
    intro ys
    cases ys with
    | nil => right; simp [lexLe]
    | cons b bs =>
      simp only [lexLe]
      rcases Nat.lt_trichotomy a.toNat b.toNat with h | h | h
      · left; simp [h]
      · have h1 : ¬ a.toNat < b.toNat := by omega
        have h2 : ¬ b.toNat < a.toNat := by omega
        simp only [h1, h2, if_false, if_neg, ite_false]
        simpa using ih bs
      · right; simp [h]

/-- `lexLe` is transitive. -/
theorem lexLe_trans : ∀ xs ys zs : List Char,
    lexLe xs ys = true → lexLe ys zs = true → lexLe xs zs = true := by
  intro xs
  induction xs with
  | nil => intro ys zs _ _; simp [lexLe]
  | cons a as ih =>
    intro ys zs h1 h2
    cases ys with
    | nil => simp [lexLe] at h1
    | cons b bs =>
      cases zs with
      | nil => simp [lexLe] at h2
      | cons c cs =>
        simp only [lexLe] at h1 h2 ⊢
        rcases Nat.lt_trichotomy a.toNat b.toNat with hab | hab | hab
        · rcases Nat.lt_trichotomy b.toNat c.toNat with hbc | hbc | hbc
          · have hac : a.toNat < c.toNat := by omega
            simp [hac]
          · have hac : a.toNat < c.toNat := by omega
            simp [hac]
          · have hbc1 : ¬ b.toNat < c.toNat := by omega
            simp [hbc1, hbc] at h2
        · have hab1 : ¬ a.toNat < b.toNat := by omega
          have hab2 : ¬ b.toNat < a.toNat := by omega
          simp [hab1, hab2] at h1
          rcases Nat.lt_trichotomy b.toNat c.toNat with hbc | hbc | hbc
          · have hac : a.toNat < c.toNat := by omega
            simp [hac]
          · have hbc1 : ¬ b.toNat < c.toNat := by omega
            have hbc2 : ¬ c.toNat < b.toNat := by omega
            simp [hbc1, hbc2] at h2
            have hac1 : ¬ a.toNat < c.toNat := by omega
            have hac2 : ¬ c.toNat < a.toNat := by omega
            simp [hac1, hac2]
            exact ih bs cs h1 h2
          · have hbc1 : ¬ b.toNat < c.toNat := by omega
            simp [hbc1, hbc] at h2
        · have hab1 : ¬ a.toNat < b.toNat := by omega
          simp [hab1, hab] at h1

/-- Claim C6: for every loaded node and link-type value T accepted by the
filter flag, `in -t T` prints exactly the incoming links of type T (the
store-order filtered sublist, one formatted line each), and when that
filtered set is empty it prints the `No incoming links of type T` message. -/
theorem in_filters_by_link_type (n : Node) (t : String) (ht : t ∈ LINK_TYPES) :
    (n.incoming.filter (fun l => l.linkType == t) = [] →
      do_in_body n (some t) = ["No incoming links of type " ++ t]) ∧
    (n.incoming.filter (fun l => l.linkType == t) ≠ [] →
      do_in_body n (some t) =
        (n.incoming.filter (fun l => l.linkType == t)).map formatLink) := by
  constructor <;> intro h <;> simp [do_in_body, get_incoming, h] <;> rfl

/-- Witness for C6: on the sample link node, `in -t CREATE` prints exactly
the two CREATE links in store order, and `in -t CALL_CALC` prints the
empty-filter message. -/
theorem in_filters_by_link_type_witness :
    do_in_body wLinkNode (some "CREATE") = ["- CREATE (c1) -> 2", "- CREATE (c2) -> 4"] ∧
    do_in_body wLinkNode (some "CALL_CALC") = ["No incoming links of type CALL_CALC"] := by
  constructor
  · rw [(in_filters_by_link_type wLinkNode "CREATE" (by decide)).2 (by decide)]
    decide
  · exact (in_filters_by_link_type wLinkNode "CALL_CALC" (by decide)).1 (by decide)

/-- Claim C7: `extrakeys` and `attrkeys` print the keys of the respective
mapping sorted lexicographically (by code point, regardless of the mapping's
insertion order), one key per line prefixed `- `, and print the `No
extras` / `No attributes` message when the mapping is empty. The printed
sequence `pySorted keys` is sorted under the lexicographic order and is a
permutation of the mapping's keys. -/
theorem keys_printed_sorted (n : Node) :
    (List.Sorted (fun a b => pyLe a b = true) (pySorted (extras_keys n)) ∧
     (pySorted (extras_keys n)).Perm (extras_keys n) ∧
     (extras_keys n ≠ [] →
       do_extrakeys_body n = (pySorted (extras_keys n)).map (fun key => "- " ++ key)) ∧
     (extras_keys n = [] → do_extrakeys_body n = ["No extras"])) ∧
    (List.Sorted (fun a b => pyLe a b = true) (pySorted (attributes_keys n)) ∧
     (pySorted (attributes_keys n)).Perm (attributes_keys n) ∧
     (attributes_keys n ≠ [] →
       do_attrkeys_body n = (pySorted (attributes_keys n)).map (fun key => "- " ++ key)) ∧
     (attributes_keys n = [] → do_attrkeys_body n = ["No attributes"])) := by
  haveI : IsTotal String (fun a b => pyLe a b = true) :=
    ⟨fun a b => lexLe_total a.data b.data⟩
  haveI : IsTrans String (fun a b => pyLe a b = true) :=
    ⟨fun a b c => lexLe_trans a.data b.data c.data⟩
  refine ⟨⟨List.sorted_insertionSort _ _, List.perm_insertionSort _ _, ?_, ?_⟩,
          ⟨List.sorted_insertionSort _ _, List.perm_insertionSort _ _, ?_, ?_⟩⟩ <;>
    intro h <;> simp [do_extrakeys_body, do_attrkeys_body, h]

/-- Witness for C7: the sample node's extras, inserted in the order
`beta, alpha`, are listed as `alpha, beta`. -/
theorem keys_printed_sorted_witness :
    do_extrakeys_body wKeysNode = ["- alpha", "- beta"] := by
  rw [((keys_printed_sorted wKeysNode).1.2.2.1 (by decide))]
  decide

/-- Claim C8: `repo_cat P` prints the file content of P to stdout when P
names a file; when P names a directory or does not exist it fails with two
distinct error kinds carrying different messages, both written to the error
stream only, and in every case the handler returns normally (the error is
caught inside it and never escapes to terminate the loop). -/
theorem repo_cat_distinguishes_errors (n : Node) (path : String) :
    (∀ c, resolve n.repo (splitPath path) = some (RepoTree.file c) →
      do_repo_cat_body n path = Except.ok ([c], [])) ∧
    (∀ cs, resolve n.repo (splitPath path) = some (RepoTree.dir cs) →
      do_repo_cat_body n path =
        Except.ok ([], ["Error: " ++ sq ++ path ++ sq ++ " is a directory"])) ∧
    (resolve n.repo (splitPath path) = none →
      do_repo_cat_body n path =
        Except.ok ([], ["Error: " ++ sq ++ path ++ sq ++ " not found if node repository"])) ∧
    ("Error: " ++ sq ++ path ++ sq ++ " is a directory") ≠
      ("Error: " ++ sq ++ path ++ sq ++ " not found if node repository") := by
  refine ⟨?_, ?_, ?_, ?_⟩
  · intro c hc; simp [do_repo_cat_body, get_object_content, hc]
  · intro cs hc; simp [do_repo_cat_body, get_object_content, hc]
  · intro hc; simp [do_repo_cat_body, get_object_content, hc]
  · intro h
    have h2 := congrArg String.length h
    have e0 : ∀ a b : String, (a ++ b).length = a.length + b.length := by
      intro a b; simp [String.length_append]
    rw [e0, e0, e0, e0, e0, e0, e0, e0] at h2
    have e1 : (" is a directory" : String).length = 15 := rfl
    have e2 : (" not found if node repository" : String).length = 29 := rfl
    omega

/-- Witness for C8 on the sample repository: content for a file path, the
directory message for a directory path, the not-found message for a missing
path. -/
theorem repo_cat_distinguishes_errors_witness :
    do_repo_cat_body wRepoNode "docs/a.txt" = Except.ok (["hello"], []) ∧
    do_repo_cat_body wRepoNode "docs" =
      Except.ok ([], ["Error: " ++ sq ++ "docs" ++ sq ++ " is a directory"]) ∧
    do_repo_cat_body wRepoNode "missing" =
      Except.ok ([], ["Error: " ++ sq ++ "missing" ++ sq ++ " not found if node repository"]) := by
  exact ⟨(repo_cat_distinguishes_errors wRepoNode "docs/a.txt").1 "hello" rfl,
         (repo_cat_distinguishes_errors wRepoNode "docs").2.1 _ rfl,
         (repo_cat_distinguishes_errors wRepoNode "missing").2.2.1 rfl⟩

/-- When a key does not name an existing directory, the store's listing
raises `FileNotFoundError`. -/
theorem list_objects_not_dir (t : RepoTree) (key : String)
    (h : ∀ cs, resolve t (splitPath key) ≠ some (RepoTree.dir cs)) :
    list_objects t key = Except.error PyExc.fileNotFoundError := by
  unfold list_objects
  cases hr : resolve t (splitPath key) with
  | none => rfl
  | some t2 =>
    cases t2 with
    | dir cs => exact absurd hr (h cs)
    | file c => rfl

/-- Claim C3 counterexample: on the sample node, completing a partial path
whose folder part (`missing`) does not exist makes both path completers
raise the repository's `FileNotFoundError` instead of returning the empty
candidate set the claim promises. -/
theorem completer_raises_on_missing_folder :
    repo_ls_completer_method wState "missing/x" = Except.error PyExc.fileNotFoundError ∧
    repo_cat_completer_method wState "missing/x" = Except.error PyExc.fileNotFoundError ∧
    repo_ls_completer_method wState "missing/x" ≠ Except.ok [] ∧
    repo_cat_completer_method wState "missing/x" ≠ Except.ok [] := by
  refine ⟨rfl, rfl, ?_, ?_⟩ <;> intro hcontra
  · have he : (Except.error PyExc.fileNotFoundError : Except PyExc (List String)) =
        Except.ok [] := by rw [← hcontra]; rfl
    exact Except.noConfusion he
  · have he : (Except.error PyExc.fileNotFoundError : Except PyExc (List String)) =
        Except.ok [] := by rw [← hcontra]; rfl
    exact Except.noConfusion he

/-- Claim C3 as amended: when the folder part of the partial path does not
name an existing directory of the loaded node's repository (it is
nonexistent or names a file), both path completers propagate the store's
`FileNotFoundError` — there is no guard, so the candidate set is not
produced at all rather than being empty. -/
theorem completers_error_on_bad_folder (s : ShellState) (n : Node) (text : String)
    (hs : s.currentNode = some n)
    (h : ∀ cs, resolve n.repo (splitPath (rpartitionSlash text).1) ≠ some (RepoTree.dir cs)) :
    repo_ls_completer_method s text = Except.error PyExc.fileNotFoundError ∧
    repo_cat_completer_method s text = Except.error PyExc.fileNotFoundError := by
  have hlo := list_objects_not_dir n.repo (rpartitionSlash text).1 h
  constructor <;>
    simp [repo_ls_completer_method, repo_cat_completer_method, derefNode, hs, hlo,
      Bind.bind, Except.bind]

/-- Witness for the amended C3: the folder part `docs/a.txt` names a file,
and both completers raise `FileNotFoundError` there. -/
theorem completers_error_on_bad_folder_witness :
    repo_ls_completer_method wState "docs/a.txt/x" = Except.error PyExc.fileNotFoundError ∧
    repo_cat_completer_method wState "docs/a.txt/x" = Except.error PyExc.fileNotFoundError := by
  refine completers_error_on_bad_folder wState wRepoNode "docs/a.txt/x" rfl ?_
  intro cs hcs
  have hfile : resolve wRepoNode.repo (splitPath (rpartitionSlash "docs/a.txt/x").1) =
      some (RepoTree.file "hello") := rfl
  rw [hfile] at hcs
  injection hcs with hcs2
  exact RepoTree.noConfusion hcs2

/-- String append acts as append on the underlying character lists. -/
theorem strData_append (a b : String) : (a ++ b).data = a.data ++ b.data := rfl

/-- Splitting distributes over a separator occurrence. -/
theorem splitAux_append_slash (xs : List Char) : ∀ (acc ys : List Char),
    splitComponentsAux acc (xs ++ '/' :: ys) =
    splitComponentsAux acc xs ++ splitComponentsAux [] ys := by
  induction xs with
  | nil => intro acc ys; simp [splitComponentsAux]
  | cons c rest ih =>
    intro acc ys
    by_cases hc : c = '/'
    · subst hc; simp [splitComponentsAux, ih]
    · simp [splitComponentsAux, hc, ih]

/-- Splitting a separator-free list yields one component. -/
theorem splitAux_no_slash (xs : List Char) : ∀ acc : List Char, '/' ∉ xs →
    splitComponentsAux acc xs = [acc.reverse ++ xs] := by
  induction xs with
  | nil => intro acc _; simp [splitComponentsAux]
  | cons c rest ih =>
    intro acc h
    have hc : ¬ c = '/' := by
      intro hh; subst hh; exact h (List.mem_cons_self _ _)
    have h2 : '/' ∉ rest := fun hr => h (List.mem_cons_of_mem c hr)
    simp [splitComponentsAux, hc, ih (c :: acc) h2, List.append_assoc]

/-- Path components distribute over a separator occurrence. -/
theorem splitPathL_append_slash (xs ys : List Char) :
    splitPathL (xs ++ '/' :: ys) = splitPathL xs ++ splitPathL ys := by
  simp [splitPathL, splitAux_append_slash, List.map_append, List.filter_append]

/-- A well-formed name is a single path component. -/
theorem splitPathL_wfName (nm : String) (h : wfName nm) : splitPathL nm.data = [nm] := by
  obtain ⟨h1, h2, h3⟩ := h
  rw [splitPathL, splitAux_no_slash nm.data [] h3]
  have hmk : String.mk nm.data = nm := rfl
  simp [hmk, h1, h2]

/-- The empty character list has no path components. -/
theorem splitPathL_nil : splitPathL [] = [] := rfl

/-- The completer's qualified rendering of a well-formed child name appends
exactly one component to the folder's path. -/
theorem splitPath_render (folder nm : String) (h : wfName nm) :
    splitPath (folder ++ (if folder == "" then "" else "/") ++ nm ++ "/") =
    splitPath folder ++ [nm] := by
  by_cases hf : folder = ""
  · subst hf
    have e : ((("" : String) ++ (if ("" : String) == "" then "" else "/") ++ nm ++ "/")).data =
        nm.data ++ '/' :: ([] : List Char) := by
      simp [strData_append]
    rw [splitPath, e, splitPathL_append_slash nm.data []]
    simp [splitPathL_wfName nm h, splitPathL_nil, splitPath]
  · have hf2 : (folder == "") = false := by simp [hf]
    have e : ((folder ++ (if folder == "" then "" else "/") ++ nm ++ "/")).data =
        folder.data ++ '/' :: (nm.data ++ '/' :: ([] : List Char)) := by
      simp [strData_append, hf2]
    rw [splitPath, e, splitPathL_append_slash folder.data (nm.data ++ '/' :: [])]
    rw [splitPathL_append_slash nm.data []]
    simp [splitPathL_wfName nm h, splitPathL_nil, splitPath]

/-- Resolution splits along path concatenation. -/
theorem resolve_append (p q : List String) : ∀ t : RepoTree,
    resolve t (p ++ q) = (resolve t p).bind (fun t2 => resolve t2 q) := by
  induction p with
  | nil => intro t; simp [resolve]
  | cons c rest ih =>
    intro t
    cases t with
    | file content => simp [resolve]
    | dir cs =>
      cases hl : lookupChild cs c with
      | none => simp [resolve, hl]
      | some t2 => simp [resolve, hl, ih t2]

/-- With duplicate-free names, looking up a member entry finds exactly it. -/
theorem lookupChild_eq_of_mem (cs : List (String × RepoTree)) (nm : String) (sub : RepoTree)
    (hmem : (nm, sub) ∈ cs) (hnd : (cs.map Prod.fst).Nodup) :
    lookupChild cs nm = some sub := by
  induction cs with
  | nil => cases hmem
  | cons hd tl ih =>
    rcases List.mem_cons.mp hmem with heq | hmem2
    · subst heq
      simp [lookupChild, List.find?_cons_of_pos]
    · have hnd1 : hd.1 ∉ tl.map Prod.fst := by
        have := hnd
        simp only [List.map_cons, List.nodup_cons] at this
        exact this.1
      have hne : (hd.1 == nm) = false := by
        simp only [beq_eq_false_iff_ne, ne_eq]
        intro hh
        exact hnd1 (hh ▸ List.mem_map_of_mem Prod.fst hmem2)
      have hnd2 : (tl.map Prod.fst).Nodup := by
        have := hnd
        simp only [List.map_cons, List.nodup_cons] at this
        exact this.2
      have hfind : (hd :: tl).find? (fun c => c.1 == nm) = tl.find? (fun c => c.1 == nm) :=
        List.find?_cons_of_neg _ (by simp [hne])
      simp only [lookupChild, hfind]
      simpa [lookupChild] using ih hmem2 hnd2

/-- The second-level expansion loop of the directories-only completer, run
on qualified renderings of directory children of the resolved folder,
produces each first-level candidate followed by its directory children
rendered with the extra separator. -/
theorem repoLsExpand_sound (repo : RepoTree) (folder : String)
    (cs : List (String × RepoTree))
    (hres : resolve repo (splitPath folder) = some (RepoTree.dir cs))
    (hnd : (cs.map Prod.fst).Nodup) :
    ∀ l : List (String × RepoTree),
      (∀ c ∈ l, wfName c.1 ∧ (c.1, c.2) ∈ cs ∧ treeKind c.2 = FileType.directory) →
      repoLsExpand repo
        (l.map (fun c => folder ++ (if folder == "" then "" else "/") ++ c.1 ++ "/")) =
      Except.ok ((l.map (fun c =>
        (folder ++ (if folder == "" then "" else "/") ++ c.1 ++ "/") ::
          ((childEntries c.2).filter (fun g => treeKind g.2 == FileType.directory)).map
            (fun g =>
              folder ++ (if folder == "" then "" else "/") ++ c.1 ++ "/" ++ "/" ++ g.1 ++ "/"))).flatten) := by
  intro l
  induction l with
  | nil => intro _; simp [repoLsExpand]
  | cons c rest ih =>
    intro hall
    obtain ⟨hwfc, hmemc, hdirc⟩ := hall c (List.mem_cons_self c rest)
    have hrest := fun c' hc' => hall c' (List.mem_cons_of_mem c hc')
    obtain ⟨gs, hgs⟩ : ∃ gs, c.2 = RepoTree.dir gs := by
      cases hc2 : c.2 with
      | dir gs => exact ⟨gs, rfl⟩
      | file y => rw [hc2] at hdirc; simp [treeKind] at hdirc
    have hres2 : resolve repo (splitPath folder ++ [c.1]) = some (RepoTree.dir gs) := by
      rw [resolve_append, hres]
      simp [Option.bind, resolve, lookupChild_eq_of_mem cs c.1 c.2 hmemc hnd, hgs]
    have hlo : list_objects repo
        (folder ++ (if folder == "" then "" else "/") ++ c.1 ++ "/") =
        Except.ok (gs.map (fun g => RepoObj.mk g.1 (treeKind g.2))) := by
      unfold list_objects
      rw [splitPath_render folder c.1 hwfc, hres2]
    simp only [List.map_cons, repoLsExpand, hlo, ih hrest, Bind.bind, Except.bind,
      List.flatten_cons]
    congr 1
    rw [List.filter_map]
    simp only [List.map_map, hgs, childEntries]
    congr 1

/-- Claim C9 as amended: for every loaded node and partial path whose folder
part resolves to a directory with well-formed, duplicate-free child names,
the directories-only completer returns exactly the candidate set the claim
describes — directory children of the folder matching the prefix, each as a
folder-qualified path with trailing `/`, plus each one's directory children
— except that every second-level candidate carries a doubled `//` between
the first-level candidate and the child name. -/
theorem repo_ls_completer_characterization (s : ShellState) (n : Node) (text : String)
    (cs : List (String × RepoTree))
    (hs : s.currentNode = some n)
    (hres : resolve n.repo (splitPath (rpartitionSlash text).1) = some (RepoTree.dir cs))
    (hwf : ∀ c ∈ cs, wfName c.1)
    (hnd : (cs.map Prod.fst).Nodup) :
    repo_ls_completer_method s text = Except.ok (repo_ls_candidates_amended n.repo text) := by
  have hall : ∀ c ∈ cs.filter
      (fun c => strStartsWith c.1 (rpartitionSlash text).2 && treeKind c.2 == FileType.directory),
      wfName c.1 ∧ (c.1, c.2) ∈ cs ∧ treeKind c.2 = FileType.directory := by
    intro c hc
    have hcs := List.mem_of_mem_filter hc
    have hq := List.of_mem_filter hc
    have hdir : treeKind c.2 = FileType.directory := by
      have := (Bool.and_eq_true _ _).mp hq
      exact beq_iff_eq.mp this.2
    exact ⟨hwf c hcs, by simpa using hcs, hdir⟩
  have hexp := repoLsExpand_sound n.repo (rpartitionSlash text).1 cs hres hnd
    (cs.filter
      (fun c => strStartsWith c.1 (rpartitionSlash text).2 && treeKind c.2 == FileType.directory))
    hall
  simp only [repo_ls_completer_method, repo_ls_candidates_amended, derefNode, hs,
    Bind.bind, Except.bind, list_objects, hres]
  rw [List.filter_map]
  simp only [List.map_map]
  have hpred : ((fun o => strStartsWith o.name (rpartitionSlash text).2 &&
        o.type == FileType.directory) ∘ fun c => RepoObj.mk c.1 (treeKind c.2)) =
      (fun c : String × RepoTree =>
        strStartsWith c.1 (rpartitionSlash text).2 && treeKind c.2 == FileType.directory) := rfl
  rw [hpred]
  exact hexp

/-- Claim C9 counterexample: on the sample repository `{docs/ {sub/, a.txt},
readme.md}` with empty partial path, the completer's candidate set is
`[docs/, docs//sub/]` — the second-level candidate has a doubled separator
and differs from the correctly joined set `[docs/, docs/sub/]` the claim
describes. -/
theorem repo_ls_completer_double_slash :
    repo_ls_completer_method wState "" = Except.ok ["docs/", "docs//sub/"] ∧
    repo_ls_candidates_claim wRepoNode.repo "" = ["docs/", "docs/sub/"] ∧
    (["docs/", "docs//sub/"] : List String) ≠ ["docs/", "docs/sub/"] := by
  refine ⟨rfl, rfl, ?_⟩
  decide

/-- Witness for the amended C9 on the sample repository. -/
theorem repo_ls_completer_characterization_witness :
    repo_ls_completer_method wState "" =
      Except.ok (repo_ls_candidates_amended wRepoNode.repo "") := by
  refine repo_ls_completer_characterization wState wRepoNode ""
    [("docs", RepoTree.dir [("sub", RepoTree.dir []), ("a.txt", RepoTree.file "hello")]),
     ("readme.md", RepoTree.file "readme")] rfl rfl ?_ ?_
  · intro c hc
    fin_cases hc <;> exact ⟨by decide, by decide, by decide⟩
  · decide

end NodeShell
